import Mathlib

/-
Verification of the moduledata layout/decoder/parser/validator of this
repository (files src/objfile/moduledata_layout.go and
src/check/refactor/moduledata_parser.go) against its specification.

Modelling conventions:
* Go `uint64` values are modelled as `Nat`; where Go's 64-bit wraparound
  matters (the `offset.Offset+offset.Size` bounds computation) the sum is
  reduced with an explicit `% 2 ^ 64` (`wrap64`).
* A Go byte buffer `[]byte` is a `List Nat` of byte values.
* Fallible Go functions returning `(T, error)` become `Except`.
* A Go runtime panic raised by a slice expression whose bounds are invalid
  (reachable only when the `uint64` addition in the bounds check wraps) is
  modelled as the distinguished error `ReadErr.fault`, distinct from the
  bounds error the functions return for an ordinary overrun.
-/

set_option autoImplicit false
set_option maxRecDepth 100000

/-- Reduction modulo `2 ^ 64`, the semantics of Go `uint64` addition. -/
def wrap64 (n : Nat) : Nat := n % 2 ^ 64

/-- Little-endian byte decoding: `binary.LittleEndian.Uint64`/`Uint32`
(first byte least significant) from the Go `encoding/binary` package,
applied to a list of byte values. -/
def leUint : List Nat → Nat
  | [] => 0
  | b :: bs => b + 256 * leUint bs

/-- Big-endian byte decoding: `binary.BigEndian.Uint64`/`Uint32`
(first byte most significant). -/
def beUint : List Nat → Nat
  | [] => 0
  | b :: bs => b * 256 ^ bs.length + beUint bs

/-- Decode `width` bytes of `data` starting at `off` in the selected byte
order.  Corresponds to the `binary.X.UintNN(fieldData)` calls in
`readField`/`readSlice` applied to the sub-slice `data[off : off+width]`. -/
def decodeWord (data : List Nat) (off width : Nat) (littleEndian : Bool) : Nat :=
  if littleEndian then leUint ((data.drop off).take width)
  else beUint ((data.drop off).take width)

/-- Little-endian byte encoding of `v` on `n` bytes:
`binary.LittleEndian.PutUint64`/`PutUint32` from `encoding/binary`,
used by the repository's test writers and by the spec's round-trip
property. -/
def encodeLE : Nat → Nat → List Nat
  | _, 0 => []
  | v, n + 1 => v % 256 :: encodeLE (v / 256) n

/-- Encode `v` on `width` bytes in the selected byte order
(`binary.LittleEndian.PutUintNN` resp. `binary.BigEndian.PutUintNN`). -/
def goPutUint (v width : Nat) (littleEndian : Bool) : List Nat :=
  if littleEndian then encodeLE v width else (encodeLE v width).reverse

/-- Overwrite the bytes of `data` starting at `off` with `bytes`:
the effect of a `binary.X.PutUintNN(buf[off:], v)` store into a buffer. -/
def putBytes (data : List Nat) (off : Nat) (bytes : List Nat) : List Nat :=
  data.take off ++ bytes ++ data.drop (off + bytes.length)

/-- Byte-wise lexicographic strict order on character lists; Go's
`strings.Compare(a, b) < 0`.  (Go compares UTF-8 bytes; UTF-8 byte order
coincides with code-point order, which is compared here.) -/
def charListLt : List Char → List Char → Bool
  | [], [] => false
  | [], _ :: _ => true
  | _ :: _, [] => false
  | a :: as, b :: bs =>
    if a.toNat < b.toNat then true
    else if b.toNat < a.toNat then false
    else charListLt as bs

/-- Go's `strings.Compare(a, b) >= 0`, the comparison `ParseModuleData`
uses for its version tier gating. -/
def goCompareGE (a b : String) : Bool := !(charListLt a.toList b.toList)

/-- `p` is an initial segment of `s` (on character lists). -/
def listHasPfx : List Char → List Char → Bool
  | [], _ => true
  | _ :: _, [] => false
  | p :: ps, c :: cs => p == c && listHasPfx ps cs

/-- Go's `strings.HasPrefix(s, pfx)`. -/
def goHasPfx (s pfx : String) : Bool := listHasPfx pfx.toList s.toList

/-- String equality on character lists; Go map-key equality for the
layout registry. -/
def stringKeyEq (a b : String) : Bool :=
  a.toList == b.toList

/-- `FieldOffset` from src/objfile/moduledata_layout.go: the byte offset
and byte size of one moduledata field; both are Go `uint64`.
`Size = 0` marks a field absent from the layout. -/
structure FieldOffset where
  Offset : Nat := 0
  Size : Nat := 0
deriving DecidableEq, Repr

/-- `ModuleDataLayout` from src/objfile/moduledata_layout.go.  Field
defaults are the Go zero value, matching the omitted fields of the Go
composite literals. -/
structure ModuleDataLayout where
  Text : FieldOffset := {}
  Types : FieldOffset := {}
  ETypes : FieldOffset := {}
  Typelinks : FieldOffset := {}
  ITablinks : FieldOffset := {}
  Ftab : FieldOffset := {}
  Minpc : FieldOffset := {}
  Textsectmap : FieldOffset := {}
  LegacyTypes : FieldOffset := {}
  Rodata : FieldOffset := {}
  Gofunc : FieldOffset := {}
  Covctrs : FieldOffset := {}
  Ecovctrs : FieldOffset := {}
  InitTasks : FieldOffset := {}
  PtrSize : Nat := 0
deriving DecidableEq, Repr

/-- The entries of the Go map literal `versionLayoutMap` of
src/objfile/moduledata_layout.go, key by key, offsets and sizes copied
verbatim. -/
def versionLayoutEntries : List (String × ModuleDataLayout) := [
  ("1.5",
    { Text := ⟨0x40, 4⟩, Types := ⟨0x0, 0⟩, ETypes := ⟨0x0, 0⟩,
      Typelinks := ⟨0x60, 12⟩, ITablinks := ⟨0x0, 0⟩, Ftab := ⟨0x8, 12⟩,
      Minpc := ⟨0x20, 4⟩, Textsectmap := ⟨0x0, 0⟩,
      LegacyTypes := ⟨0x60, 12⟩, PtrSize := 4 }),
  ("1.5_64",
    { Text := ⟨0x80, 8⟩, Types := ⟨0x0, 0⟩, ETypes := ⟨0x0, 0⟩,
      Typelinks := ⟨0xc0, 24⟩, ITablinks := ⟨0x0, 0⟩, Ftab := ⟨0x10, 24⟩,
      Minpc := ⟨0x40, 8⟩, Textsectmap := ⟨0x0, 0⟩,
      LegacyTypes := ⟨0xc0, 24⟩, PtrSize := 8 }),
  ("1.7",
    { Text := ⟨0x40, 4⟩, Types := ⟨0x60, 4⟩, ETypes := ⟨0x64, 4⟩,
      Typelinks := ⟨0x68, 12⟩, ITablinks := ⟨0x74, 12⟩, Ftab := ⟨0x8, 12⟩,
      Minpc := ⟨0x20, 4⟩, Textsectmap := ⟨0x0, 0⟩, PtrSize := 4 }),
  ("1.7_64",
    { Text := ⟨0x80, 8⟩, Types := ⟨0xc0, 8⟩, ETypes := ⟨0xc8, 8⟩,
      Typelinks := ⟨0xd0, 24⟩, ITablinks := ⟨0xe8, 24⟩, Ftab := ⟨0x10, 24⟩,
      Minpc := ⟨0x40, 8⟩, Textsectmap := ⟨0x0, 0⟩, PtrSize := 8 }),
  ("1.18",
    { Text := ⟨0x40, 4⟩, Types := ⟨0x60, 4⟩, ETypes := ⟨0x64, 4⟩,
      Typelinks := ⟨0x68, 12⟩, ITablinks := ⟨0x74, 12⟩, Ftab := ⟨0x8, 12⟩,
      Minpc := ⟨0x20, 4⟩, Textsectmap := ⟨0x80, 12⟩,
      Rodata := ⟨0x70, 4⟩, Gofunc := ⟨0x74, 4⟩, PtrSize := 4 }),
  ("1.18_64",
    { Text := ⟨0x80, 8⟩, Types := ⟨0xc0, 8⟩, ETypes := ⟨0xc8, 8⟩,
      Typelinks := ⟨0xd0, 24⟩, ITablinks := ⟨0xe8, 24⟩, Ftab := ⟨0x10, 24⟩,
      Minpc := ⟨0x40, 8⟩, Textsectmap := ⟨0x100, 24⟩,
      Rodata := ⟨0xe0, 8⟩, Gofunc := ⟨0xe8, 8⟩, PtrSize := 8 }),
  ("1.20",
    { Text := ⟨0x40, 4⟩, Types := ⟨0x60, 4⟩, ETypes := ⟨0x64, 4⟩,
      Typelinks := ⟨0x68, 12⟩, ITablinks := ⟨0x74, 12⟩, Ftab := ⟨0x8, 12⟩,
      Minpc := ⟨0x20, 4⟩, Textsectmap := ⟨0x80, 12⟩,
      Rodata := ⟨0x70, 4⟩, Gofunc := ⟨0x74, 4⟩,
      Covctrs := ⟨0x78, 4⟩, Ecovctrs := ⟨0x7c, 4⟩, PtrSize := 4 }),
  ("1.20_64",
    { Text := ⟨0x80, 8⟩, Types := ⟨0xc0, 8⟩, ETypes := ⟨0xc8, 8⟩,
      Typelinks := ⟨0xd0, 24⟩, ITablinks := ⟨0xe8, 24⟩, Ftab := ⟨0x10, 24⟩,
      Minpc := ⟨0x40, 8⟩, Textsectmap := ⟨0x100, 24⟩,
      Rodata := ⟨0xe0, 8⟩, Gofunc := ⟨0xe8, 8⟩,
      Covctrs := ⟨0xf0, 8⟩, Ecovctrs := ⟨0xf8, 8⟩, PtrSize := 8 }),
  ("1.22",
    { Text := ⟨0x40, 4⟩, Types := ⟨0x60, 4⟩, ETypes := ⟨0x64, 4⟩,
      Typelinks := ⟨0x68, 12⟩, ITablinks := ⟨0x74, 12⟩, Ftab := ⟨0x8, 12⟩,
      Minpc := ⟨0x20, 4⟩, Textsectmap := ⟨0x80, 12⟩,
      Rodata := ⟨0x70, 4⟩, Gofunc := ⟨0x74, 4⟩,
      Covctrs := ⟨0x78, 4⟩, Ecovctrs := ⟨0x7c, 4⟩,
      InitTasks := ⟨0x8c, 12⟩, PtrSize := 4 }),
  ("1.22_64",
    { Text := ⟨0x80, 8⟩, Types := ⟨0xc0, 8⟩, ETypes := ⟨0xc8, 8⟩,
      Typelinks := ⟨0xd0, 24⟩, ITablinks := ⟨0xe8, 24⟩, Ftab := ⟨0x10, 24⟩,
      Minpc := ⟨0x40, 8⟩, Textsectmap := ⟨0x100, 24⟩,
      Rodata := ⟨0xe0, 8⟩, Gofunc := ⟨0xe8, 8⟩,
      Covctrs := ⟨0xf0, 8⟩, Ecovctrs := ⟨0xf8, 8⟩,
      InitTasks := ⟨0x118, 24⟩, PtrSize := 8 })
]

/-- Lookup in the `versionLayoutMap` Go map (keys are pairwise distinct,
so association-list lookup has the map's semantics). -/
def versionLayoutMap (key : String) : Option ModuleDataLayout :=
  (versionLayoutEntries.find? fun e => stringKeyEq e.1 key).map fun e => e.2

/-- The default layout `getLayout` returns for an unknown key: the Go
composite literal `ModuleDataLayout{PtrSize: 4}` (all fields zero). -/
def ModuleDataLayout.degenerate : ModuleDataLayout := { PtrSize := 4 }

/-- The lookup key `getLayout` builds: the version string with `"_64"`
appended when `is64bit`. -/
def layoutKey (version : String) (is64bit : Bool) : String :=
  if is64bit then version ++ "_64" else version

/-- `getLayout` from src/objfile/moduledata_layout.go: build the key,
look it up, and fall back to the degenerate layout on a miss. -/
def getLayout (version : String) (is64bit : Bool) : ModuleDataLayout :=
  match versionLayoutMap (layoutKey version is64bit) with
  | some layout => layout
  | none => ModuleDataLayout.degenerate

/-- Modelled from the spec: `GoSlice64` (the decoded slice descriptor,
`{data, length, capacity}`, §3 of the spec) is defined elsewhere in the
repository; its three fields are address-sized unsigned integers
(`pvoid64`/`uint64`).  The Go zero value is the all-zero descriptor. -/
structure GoSlice64 where
  Data : Nat := 0
  Len : Nat := 0
  Capacity : Nat := 0
deriving DecidableEq, Repr

/-- Error outcomes of `readField`/`readSlice`.  `bounds` and
`unsupportedSize` are the two `fmt.Errorf` returns; `fault` models the Go
runtime panic of a slice expression with invalid bounds, which is
reachable only when the `uint64` sum `Offset+Size` wraps. -/
inductive ReadErr where
  | bounds
  | unsupportedSize
  | fault
deriving DecidableEq, Repr

/-- `readField` from src/objfile/moduledata_layout.go: absent fields
(`Size = 0`) decode to 0; otherwise the field must lie inside the buffer
(Go computes `Offset+Size` in `uint64`, hence `wrap64`); only sizes 8 and
4 are supported.  When the wrapped end lies before the start, the Go
slice expression `data[Offset : Offset+Size]` panics (`fault`). -/
def readField (data : List Nat) (f : FieldOffset) (littleEndian : Bool) :
    Except ReadErr Nat :=
  if f.Size = 0 then .ok 0
  else if data.length < wrap64 (f.Offset + f.Size) then .error .bounds
  else if wrap64 (f.Offset + f.Size) < f.Offset then .error .fault
  else if f.Size = 8 then .ok (decodeWord data f.Offset 8 littleEndian)
  else if f.Size = 4 then .ok (decodeWord data f.Offset 4 littleEndian)
  else .error .unsupportedSize

/-- `readSlice` from src/objfile/moduledata_layout.go: absent fields
decode to the zero descriptor; otherwise the same wrapped bounds check as
`readField`, then three consecutive `ptrSize`-byte words (data, length,
capacity) are decoded from `data[Offset:]`.  The sub-slice reads
`sliceData[0:8]` … `sliceData[16:24]` (resp. `[0:4]` … `[8:12]`) panic
when they run past the end of the buffer (`fault`), which can only happen
when `Size` disagrees with `3 * ptrSize` or the wrapped sum is short. -/
def readSlice (data : List Nat) (f : FieldOffset) (ptrSize : Nat)
    (littleEndian : Bool) : Except ReadErr GoSlice64 :=
  if f.Size = 0 then .ok {}
  else if data.length < wrap64 (f.Offset + f.Size) then .error .bounds
  else if wrap64 (f.Offset + f.Size) < f.Offset then .error .fault
  else if ptrSize = 8 then
    if data.length < f.Offset + 24 then .error .fault
    else .ok { Data := decodeWord data f.Offset 8 littleEndian,
               Len := decodeWord data (f.Offset + 8) 8 littleEndian,
               Capacity := decodeWord data (f.Offset + 16) 8 littleEndian }
  else
    if data.length < f.Offset + 12 then .error .fault
    else .ok { Data := decodeWord data f.Offset 4 littleEndian,
               Len := decodeWord data (f.Offset + 4) 4 littleEndian,
               Capacity := decodeWord data (f.Offset + 8) 4 littleEndian }

/-- Modelled from the spec: the `ModuleData` record (§3 of the spec) is
defined elsewhere in the repository; only the fields the parser in
src/check/refactor/moduledata_parser.go assigns are modelled.  Defaults
are the Go zero value of `&ModuleData{}`. -/
structure ModuleData where
  TextVA : Nat := 0
  Types : Nat := 0
  ETypes : Nat := 0
  Typelinks : GoSlice64 := {}
  ITablinks : GoSlice64 := {}
  LegacyTypes : GoSlice64 := {}
  Rodata : Nat := 0
  Gofunc : Nat := 0
  Covctrs : Nat := 0
  Ecovctrs : Nat := 0
  InitTasks : GoSlice64 := {}
deriving DecidableEq, Repr

/-- `ParseModuleData` from src/check/refactor/moduledata_parser.go: the
sequence of `readField`/`readSlice` calls with first-error propagation
(each error is wrapped with the failing field's name), followed by the
version-gated cascade.  The gating uses `strings.HasPrefix(version,
"1.5")` and `strings.Compare(version, t) >= 0` for the thresholds
`"1.7"`, `"1.20"`, `"1.22"`, exactly as the Go code does. -/
def ParseModuleData (data : List Nat) (version : String)
    (is64bit littleEndian : Bool) : Except (String × ReadErr) ModuleData :=
  let layout := getLayout version is64bit
  match readField data layout.Text littleEndian with
  | .error e => .error ("TextVA", e)
  | .ok textVA =>
  match readField data layout.Types littleEndian with
  | .error e => .error ("Types", e)
  | .ok types =>
  match readField data layout.ETypes littleEndian with
  | .error e => .error ("ETypes", e)
  | .ok etypes =>
  match readSlice data layout.Typelinks layout.PtrSize littleEndian with
  | .error e => .error ("Typelinks", e)
  | .ok typelinks =>
  match readSlice data layout.ITablinks layout.PtrSize littleEndian with
  | .error e => .error ("ITablinks", e)
  | .ok itablinks =>
  let md : ModuleData :=
    { TextVA := textVA, Types := types, ETypes := etypes,
      Typelinks := typelinks, ITablinks := itablinks }
  if goHasPfx version "1.5" then
    match readSlice data layout.LegacyTypes layout.PtrSize littleEndian with
    | .error e => .error ("LegacyTypes", e)
    | .ok legacy => .ok { md with LegacyTypes := legacy }
  else if goCompareGE version "1.7" then
    match readField data layout.Rodata littleEndian with
    | .error e => .error ("Rodata", e)
    | .ok rodata =>
    match readField data layout.Gofunc littleEndian with
    | .error e => .error ("Gofunc", e)
    | .ok gofunc =>
    if goCompareGE version "1.20" then
      match readField data layout.Covctrs littleEndian with
      | .error e => .error ("Covctrs", e)
      | .ok covctrs =>
      match readField data layout.Ecovctrs littleEndian with
      | .error e => .error ("Ecovctrs", e)
      | .ok ecovctrs =>
      if goCompareGE version "1.22" then
        match readSlice data layout.InitTasks layout.PtrSize littleEndian with
        | .error e => .error ("InitTasks", e)
        | .ok initTasks =>
          .ok { md with Rodata := rodata, Gofunc := gofunc,
                        Covctrs := covctrs, Ecovctrs := ecovctrs,
                        InitTasks := initTasks }
      else
        .ok { md with Rodata := rodata, Gofunc := gofunc,
                      Covctrs := covctrs, Ecovctrs := ecovctrs }
    else
      .ok { md with Rodata := rodata, Gofunc := gofunc }
  else
    .ok md

/-- The outcomes of `ValidateModuleData`, one per `fmt.Errorf` return of
the Go function, in source order. -/
inductive ValidationError where
  | textMismatch
  | typelinksInvalid
  | itablinksInvalid
  | legacyTypesInvalid
  | initTasksInvalid
deriving DecidableEq, Repr

/-- `ValidateModuleData` from src/check/refactor/moduledata_parser.go:
the text-start cross-check followed by the four `Len > Capacity` slice
checks, in source order. -/
def ValidateModuleData (md : ModuleData) (firstFuncEntry : Nat) :
    Except ValidationError Unit :=
  if md.TextVA ≠ firstFuncEntry then .error .textMismatch
  else if md.Typelinks.Len > md.Typelinks.Capacity then .error .typelinksInvalid
  else if md.ITablinks.Len > md.ITablinks.Capacity then .error .itablinksInvalid
  else if md.LegacyTypes.Len > md.LegacyTypes.Capacity then .error .legacyTypesInvalid
  else if md.InitTasks.Len > md.InitTasks.Capacity then .error .initTasksInvalid
  else .ok ()

/-- Decidable equality for `Except` results, so concrete runs of the
decoder and parser can be checked by evaluation. -/
instance exceptDecEq {ε α : Type} [DecidableEq ε] [DecidableEq α] :
    DecidableEq (Except ε α) := fun a b =>
  match a, b with
  | .ok x, .ok y =>
    if h : x = y then .isTrue (by rw [h]) else .isFalse fun hc => h (Except.ok.inj hc)
  | .ok _, .error _ => .isFalse fun hc => Except.noConfusion hc
  | .error _, .ok _ => .isFalse fun hc => Except.noConfusion hc
  | .error x, .error y =>
    if h : x = y then .isTrue (by rw [h]) else .isFalse fun hc => h (Except.error.inj hc)

/-- Per-layout size discipline: a scalar field is absent or exactly one
pointer word wide; a slice field is absent or exactly three pointer words
wide. -/
def layoutSizesOk (l : ModuleDataLayout) : Bool :=
  (l.Text.Size == 0 || l.Text.Size == l.PtrSize) &&
  (l.Types.Size == 0 || l.Types.Size == l.PtrSize) &&
  (l.ETypes.Size == 0 || l.ETypes.Size == l.PtrSize) &&
  (l.Minpc.Size == 0 || l.Minpc.Size == l.PtrSize) &&
  (l.Rodata.Size == 0 || l.Rodata.Size == l.PtrSize) &&
  (l.Gofunc.Size == 0 || l.Gofunc.Size == l.PtrSize) &&
  (l.Covctrs.Size == 0 || l.Covctrs.Size == l.PtrSize) &&
  (l.Ecovctrs.Size == 0 || l.Ecovctrs.Size == l.PtrSize) &&
  (l.Typelinks.Size == 0 || l.Typelinks.Size == 3 * l.PtrSize) &&
  (l.ITablinks.Size == 0 || l.ITablinks.Size == 3 * l.PtrSize) &&
  (l.Ftab.Size == 0 || l.Ftab.Size == 3 * l.PtrSize) &&
  (l.Textsectmap.Size == 0 || l.Textsectmap.Size == 3 * l.PtrSize) &&
  (l.LegacyTypes.Size == 0 || l.LegacyTypes.Size == 3 * l.PtrSize) &&
  (l.InitTasks.Size == 0 || l.InitTasks.Size == 3 * l.PtrSize)

/-- Every field of the layout is absent (`Size = 0`). -/
def allFieldsAbsent (l : ModuleDataLayout) : Bool :=
  l.Text.Size == 0 && l.Types.Size == 0 && l.ETypes.Size == 0 &&
  l.Typelinks.Size == 0 && l.ITablinks.Size == 0 && l.Ftab.Size == 0 &&
  l.Minpc.Size == 0 && l.Textsectmap.Size == 0 && l.LegacyTypes.Size == 0 &&
  l.Rodata.Size == 0 && l.Gofunc.Size == 0 && l.Covctrs.Size == 0 &&
  l.Ecovctrs.Size == 0 && l.InitTasks.Size == 0

/-- The 1024-byte little-endian buffer of the spec's "1.22" 64-bit
scenario: the text-start scalar `0x1000` written at the layout's text
offset `0x80`, and the init-tasks triple `(0xd000, 5, 10)` written at
the layout's init-tasks offset `0x118`; every other byte zero. -/
def c1Buffer : List Nat :=
  putBytes (putBytes (List.replicate 1024 0) 0x80 (encodeLE 0x1000 8)) 0x118
    (encodeLE 0xd000 8 ++ encodeLE 5 8 ++ encodeLE 10 8)

/-- A 1024-byte little-endian buffer for version "1.20", 64-bit, with
the value `0x9000` written at the layout's read-only-data offset `0xe0`
and every other byte zero.  (In the "1.20_64" layout the last pointer
word of the type-links slice overlaps the read-only-data scalar, so the
written bytes are also visible as `Typelinks.Capacity`.) -/
def c2Buffer : List Nat :=
  putBytes (List.replicate 1024 0) 0xe0 (encodeLE 0x9000 8)

/-- On a registry miss, `getLayout` returns the degenerate layout. -/
theorem getLayout_of_none {version : String} {is64bit : Bool}
    (h : versionLayoutMap (layoutKey version is64bit) = none) :
    getLayout version is64bit = ModuleDataLayout.degenerate := by
  unfold getLayout
  rw [h]

/-- Claim C3 counterexample: `getLayout "9.99" true` does not have
pointer-width 8 — the unknown-key fallback ignores the bitness flag and
returns pointer-width 4, so the claim is false at its own concrete
input. -/
theorem c3_counterexample : ¬ (getLayout "9.99" true).PtrSize = 8 := by
  decide

/-- Claim C3 (amended): `getLayout "9.99" true` returns a layout whose
pointer-width equals 4 and in which every field's size equals 0. -/
theorem c3_amended :
    (getLayout "9.99" true).PtrSize = 4 ∧
    allFieldsAbsent (getLayout "9.99" true) = true := by
  decide

/-- Claim C4: for every version string and bitness flag whose derived
lookup key is not in the registry, `getLayout` returns a layout in which
every field has size 0 and the pointer-width equals 4, regardless of the
`is64bit` flag. -/
theorem c4_registry_fallback (version : String) (is64bit : Bool)
    (h : versionLayoutMap (layoutKey version is64bit) = none) :
    allFieldsAbsent (getLayout version is64bit) = true ∧
    (getLayout version is64bit).PtrSize = 4 := by
  rw [getLayout_of_none h]
  decide

/-- Witness for C4 at the concrete unknown key "9.99"/64-bit. -/
theorem c4_registry_fallback_witness :
    allFieldsAbsent (getLayout "9.99" true) = true ∧
    (getLayout "9.99" true).PtrSize = 4 :=
  c4_registry_fallback "9.99" true (by decide)

/-- Claim C6: for every buffer and every field with `Size = 0`,
`readField` returns 0 and `readSlice` returns the all-zero descriptor,
without error, regardless of buffer contents, endianness and pointer
width. -/
theorem c6_absent_fields (data : List Nat) (f : FieldOffset) (ptrSize : Nat)
    (le : Bool) (h : f.Size = 0) :
    readField data f le = .ok 0 ∧ readSlice data f ptrSize le = .ok {} := by
  constructor <;> simp [readField, readSlice, h]

/-- Witness for C6 on a nonempty buffer with nonzero contents and a
nonzero offset. -/
theorem c6_absent_fields_witness :
    readField [7, 9] ⟨3, 0⟩ false = .ok 0 ∧
    readSlice [7, 9] ⟨3, 0⟩ 8 false = .ok {} :=
  c6_absent_fields [7, 9] ⟨3, 0⟩ 8 false rfl

/-- Claim C7: `ValidateModuleData` succeeds exactly when the record's
text virtual address equals the expected text start and none of the four
checked slice fields has length > capacity; equivalently, it returns an
error iff the address mismatches or some checked slice has
`Len > Capacity`. -/
theorem c7_validate_iff (md : ModuleData) (expected : Nat) :
    ValidateModuleData md expected = .ok () ↔
      (md.TextVA = expected ∧
       md.Typelinks.Len ≤ md.Typelinks.Capacity ∧
       md.ITablinks.Len ≤ md.ITablinks.Capacity ∧
       md.LegacyTypes.Len ≤ md.LegacyTypes.Capacity ∧
       md.InitTasks.Len ≤ md.InitTasks.Capacity) := by
  unfold ValidateModuleData
  repeat' split
  all_goals simp_all

/-- Claim C9: in every registry entry, every present scalar field has
size equal to the layout's pointer-width, every present slice field has
size equal to three pointer-widths, and absent fields have size 0. -/
theorem c9_registry_sizes :
    versionLayoutEntries.all (fun e => layoutSizesOk e.2) = true := by
  decide

/-- Claim C5 counterexample: the bounds check adds `Offset + Size` in
`uint64`, so for the representable field offset `{Offset = 2^64 - 4,
Size = 4}` against the empty buffer the sum wraps to 0, the check
passes, and the Go slice expression panics (`fault`) instead of a bounds
error being returned — although the mathematical `offset + size = 2^64`
exceeds the buffer length 0. -/
theorem c5_counterexample :
    ¬ readField [] ⟨2 ^ 64 - 4, 4⟩ true = Except.error ReadErr.bounds := by
  decide

/-- `encodeLE` produces exactly `n` bytes. -/
theorem encodeLE_length (n : Nat) : ∀ v, (encodeLE v n).length = n := by
  induction n with
  | zero => intro v; rfl
  | succ n ih => intro v; simp [encodeLE, ih]

/-- Little-endian decode inverts little-endian encode on values in
range. -/
theorem leUint_encodeLE (n : Nat) : ∀ v, v < 256 ^ n → leUint (encodeLE v n) = v := by
  induction n with
  | zero => intro v hv; simp [pow_zero] at hv; simp [encodeLE, leUint, hv]
  | succ n ih =>
    intro v hv
    have h1 : v / 256 < 256 ^ n := by
      rw [pow_succ] at hv
      omega
    simp [encodeLE, leUint, ih (v / 256) h1]
    omega

/-- Appending a final (least significant) byte to a big-endian digit
list multiplies the decoded value by the base. -/
theorem beUint_append (l : List Nat) (b : Nat) :
    beUint (l ++ [b]) = 256 * beUint l + b := by
  induction l with
  | nil => simp [beUint]
  | cons a t ih =>
    simp [beUint, ih, pow_succ]
    ring

/-- Big-endian decode inverts reversed little-endian encode on values in
range. -/
theorem beUint_reverse_encodeLE (n : Nat) :
    ∀ v, v < 256 ^ n → beUint (encodeLE v n).reverse = v := by
  induction n with
  | zero => intro v hv; simp [pow_zero] at hv; simp [encodeLE, beUint, hv]
  | succ n ih =>
    intro v hv
    have h1 : v / 256 < 256 ^ n := by
      rw [pow_succ] at hv
      omega
    simp [encodeLE, beUint_append, ih (v / 256) h1]
    omega

/-- An in-place store does not change the buffer length. -/
theorem putBytes_length (data bytes : List Nat) (off : Nat)
    (h : off + bytes.length ≤ data.length) :
    (putBytes data off bytes).length = data.length := by
  simp [putBytes]
  omega

/-- Dropping the length of the left part of an append returns the right
part. -/
theorem drop_append_of_length_eq {α : Type} (l₁ l₂ : List α) (n : Nat)
    (h : l₁.length = n) : (l₁ ++ l₂).drop n = l₂ := by
  subst h
  exact List.drop_left _ _

/-- Reading back the byte range just stored yields the stored bytes. -/
theorem putBytes_seg (data bytes : List Nat) (off : Nat)
    (h : off + bytes.length ≤ data.length) :
    ((putBytes data off bytes).drop off).take bytes.length = bytes := by
  have hlen : (data.take off).length = off := by
    simp [List.length_take]
    omega
  unfold putBytes
  rw [List.append_assoc, drop_append_of_length_eq _ _ off hlen]
  exact List.take_left _ _

/-- `readField` on an in-bounds field of a supported width decodes the
corresponding word. -/
theorem readField_in_range (data : List Nat) (off width : Nat) (le : Bool)
    (hw : width = 4 ∨ width = 8) (hfit : off + width ≤ data.length)
    (hlen : data.length < 2 ^ 64) :
    readField data ⟨off, width⟩ le = .ok (decodeWord data off width le) := by
  have hwrap : wrap64 (off + width) = off + width := Nat.mod_eq_of_lt (by omega)
  have h1 : ¬ data.length < off + width := by omega
  have h2 : ¬ off + width < off := by omega
  rcases hw with h | h <;> subst h <;> simp [readField, hwrap, h1, h2]

/-- Claim C8: writing a representable value `V` into a sufficiently
large buffer at any offset, in either supported width and either byte
order, and reading it back with `readField` at the same offset, width
and byte order, returns exactly `V`.  (A Go buffer has `int` length, so
`data.length < 2 ^ 63` captures every realizable buffer.) -/
theorem c8_roundtrip (data : List Nat) (off v width : Nat) (le : Bool)
    (hw : width = 4 ∨ width = 8) (hv : v < 2 ^ (8 * width))
    (hfit : off + width ≤ data.length) (hlen : data.length < 2 ^ 63) :
    readField (putBytes data off (goPutUint v width le)) ⟨off, width⟩ le = .ok v := by
  have hblen : (goPutUint v width le).length = width := by
    cases le <;> simp [goPutUint, encodeLE_length]
  have hfitB : off + (goPutUint v width le).length ≤ data.length := by
    rw [hblen]; exact hfit
  have hplen : (putBytes data off (goPutUint v width le)).length = data.length :=
    putBytes_length _ _ _ hfitB
  have hseg : ((putBytes data off (goPutUint v width le)).drop off).take width =
      goPutUint v width le := by
    have hs := putBytes_seg data (goPutUint v width le) off hfitB
    rwa [hblen] at hs
  have hv256 : v < 256 ^ width := by
    have h256 : (256 : Nat) ^ width = 2 ^ (8 * width) := by
      rw [show (256 : Nat) = 2 ^ 8 from rfl, ← pow_mul]
    rw [h256]; exact hv
  rw [readField_in_range _ off width le hw (by rw [hplen]; exact hfit) (by omega)]
  unfold decodeWord
  rw [hseg]
  cases le with
  | false => simp [goPutUint, beUint_reverse_encodeLE width v hv256]
  | true => simp [goPutUint, leUint_encodeLE width v hv256]

/-- Witness for C8: the value 300 stored on 4 little-endian bytes at
offset 0 of an 8-byte buffer reads back as 300. -/
theorem c8_roundtrip_witness :
    readField (putBytes (List.replicate 8 0) 0 (goPutUint 300 4 true)) ⟨0, 4⟩ true =
      .ok 300 :=
  c8_roundtrip (List.replicate 8 0) 0 300 4 true (Or.inl rfl) (by decide)
    (by decide) (by decide)

/-- Claim C5 (amended): for every buffer and every field offset of a
supported width whose `offset + size` does not overflow `uint64`
(`offset + size < 2 ^ 64`) and exceeds the buffer length, both
`readField` and `readSlice` return a bounds error, for every pointer
width and both byte orders.  (Without the no-overflow hypothesis the
`uint64` sum in the Go bounds check can wrap and the slice expression
panics instead; see the counterexample.) -/
theorem c5_bounds_errors (data : List Nat) (f : FieldOffset) (ptrSize : Nat)
    (le : Bool) (hsize : f.Size = 4 ∨ f.Size = 8)
    (hnowrap : f.Offset + f.Size < 2 ^ 64)
    (hout : data.length < f.Offset + f.Size) :
    readField data f le = .error .bounds ∧
    readSlice data f ptrSize le = .error .bounds := by
  have h0 : ¬ f.Size = 0 := by rcases hsize with h | h <;> omega
  have hwrap : wrap64 (f.Offset + f.Size) = f.Offset + f.Size :=
    Nat.mod_eq_of_lt hnowrap
  constructor <;> simp [readField, readSlice, h0, hwrap, hout]

/-- Witness for C5 (amended): a 4-byte field at offset 2 overruns a
3-byte buffer and both reads report the bounds error. -/
theorem c5_bounds_errors_witness :
    readField [1, 2, 3] ⟨2, 4⟩ true = .error .bounds ∧
    readSlice [1, 2, 3] ⟨2, 4⟩ 8 true = .error .bounds :=
  c5_bounds_errors [1, 2, 3] ⟨2, 4⟩ 8 true (Or.inl rfl) (by decide) (by decide)

/-- Claim C10: whenever the lookup key misses the registry, every field
of the degenerate layout is absent, so `ParseModuleData` succeeds on any
buffer — including the empty one — and returns the all-zero module
record, for any endianness.  An unknown version is indistinguishable
from a valid parse by the result alone. -/
theorem c10_unknown_version (data : List Nat) (version : String)
    (is64bit littleEndian : Bool)
    (h : versionLayoutMap (layoutKey version is64bit) = none) :
    ParseModuleData data version is64bit littleEndian = .ok {} := by
  have hl := getLayout_of_none h
  unfold ParseModuleData
  rw [hl]
  simp [ModuleDataLayout.degenerate, readField, readSlice]

/-- Witness for C10: version "9.99" (unknown key) parses a small
nonzero buffer to the all-zero record without error. -/
theorem c10_unknown_version_witness :
    ParseModuleData [3, 1, 4] "9.99" false false = .ok {} :=
  c10_unknown_version [3, 1, 4] "9.99" false false (by decide)

/-- Claim C1, evaluation at the failing input (code bug): on the spec's
"1.22" 64-bit little-endian scenario buffer (`c1Buffer`), the parser
returns `TextVA = 0x1000` as claimed, but `InitTasks` is the zero
descriptor, not `(0xd000, 5, 10)`: the lexical `strings.Compare("1.22",
"1.7") >= 0` gate is false (`'2' < '7'`), so the whole 1.7+/1.20+/1.22+
cascade — including the init-tasks decode — is skipped, contradicting
the repository's own `TestModuleDataParsing` expectation for Go 1.22
64-bit.  The validation halves of the claim do hold on the record the
code actually produces: expected text start 0x1000 succeeds and 0x5000
fails. -/
theorem c1_code_bug_eval :
    ParseModuleData c1Buffer "1.22" true true = .ok { TextVA := 0x1000 } ∧
    ({ TextVA := 0x1000 } : ModuleData).InitTasks ≠
      { Data := 0xd000, Len := 5, Capacity := 10 } ∧
    ValidateModuleData { TextVA := 0x1000 } 0x1000 = .ok () ∧
    ValidateModuleData { TextVA := 0x1000 } 0x5000 = .error .textMismatch := by
  decide

/-- Claim C2, evaluation at the failing input (code bug): under the
comparison the parser uses, `strings.Compare("1.20", "1.7") >= 0` is
false (lexically `"1.20" < "1.7"` because `'2' < '7'`), so for version
"1.20" the parser decodes neither the read-only-data/go-func scalars nor
the coverage-counter scalars: on `c2Buffer`, which carries `0x9000` at
the "1.20_64" read-only-data offset `0xe0`, the result's `Rodata`,
`Gofunc`, `Covctrs` and `Ecovctrs` are all 0.  (The written bytes are
visible only through the overlapping type-links capacity word.)  This
contradicts the claim and the intent witnessed by the repository's own
tests for the 1.18+/1.20+ tiers. -/
theorem c2_code_bug_eval :
    goCompareGE "1.20" "1.7" = false ∧
    ParseModuleData c2Buffer "1.20" true true =
      .ok { Typelinks := { Data := 0, Len := 0, Capacity := 0x9000 } } := by
  decide

/-- Witness for C7 at a concrete record: the all-zero record validates
against expected text start 0. -/
theorem c7_validate_iff_witness :
    ValidateModuleData {} 0 = .ok () :=
  (c7_validate_iff {} 0).mpr (by decide)
